import Mathlib

/-!
Shallow embedding of the `buttplug-patterns` crate (pattern combinator algebra
and driver run loop), translated from `src/lib.rs`, `src/shapes.rs`,
`src/random.rs` and `src/transformers.rs`.

Modelling conventions:
* Rust `f64` values and `std::time::Duration` values are modelled as `ℚ`
  (durations in seconds).  Claims under study are structural, not about
  floating-point rounding.
* Operations that can panic in Rust (`Duration` subtraction underflow,
  `Duration::from_secs_f64` on a negative argument, integer division by zero,
  `%` by zero producing NaN fed to `from_secs_f64`) are modelled by `Option`,
  with `none` for the panic.
* `f64::cos`, `E.powf` and the random / wall-clock environment are modelled as
  oracle functions in an `Env`; random draws and wall-clock reads are consumed
  in program order through a counter `k : ℕ`.
* `&mut self` sampling state is made explicit: `sample` returns the sampled
  value together with the updated pattern node and the new oracle counter.
-/

namespace ButtplugPatterns

/-- Truncation toward zero of a rational, as Rust `f64` `%` truncates. -/
def qtrunc (x : ℚ) : ℤ := Int.tdiv x.num (x.den : ℤ)

/-- Rust `f64` remainder `a % b`: `a - b * trunc (a / b)`. -/
def fmod (a b : ℚ) : ℚ := a - b * ((qtrunc (a / b) : ℤ) : ℚ)

/-- The exact rational value of `std::f64::consts::PI`. -/
def pi64 : ℚ := 884279719003555 / 281474976710656

/-- The exact value in seconds of Rust `Duration::MAX`
(`u64::MAX` seconds plus `999_999_999` nanoseconds). -/
def durationMAX : ℚ := (2 ^ 64 - 1 : ℚ) + (999999999 : ℚ) / 1000000000

/-- Oracles for the non-deterministic / transcendental parts of the code:
`cos` models `f64::cos`, `powfE` models `std::f64::consts::E.powf`,
`rand` models successive `rand::random_range` draws, and `wall` models
successive `Instant::now` wall-clock reads (seconds since an epoch). -/
structure Env where
  cos : ℚ → ℚ
  powfE : ℚ → ℚ
  rand : ℕ → ℚ
  wall : ℕ → ℚ

/-- The closed set of pattern nodes of the crate: the shape primitives of
`shapes.rs`, the randomized generators of `random.rs` (with their mutable
state cells inlined as constructor fields), the combinators of
`transformers.rs`, and `CustomPattern` of `lib.rs`. -/
inductive Pat where
  | pause (duration : ℚ)
  | constant (level : ℚ) (duration : ℚ)
  | linear (start stop : ℚ) (duration : ℚ)
  | sawWave (amplitude wavelength : ℚ)
  | triangleWave (amplitude wavelength : ℚ)
  | squareWave (amplitude wavelength : ℚ)
  | sineWave (amplitude wavelength : ℚ)
  | random (lo hi : ℚ) (duration : ℚ)
  | randomEvery (lo hi : ℚ) (duration interval lastTime lastValue : ℚ)
  | randomWalk (lo hi : ℚ) (duration increase decrease state : ℚ)
  | scaleTime (p : Pat) (scalar : ℚ)
  | scaleIntensity (p : Pat) (scalar : ℚ)
  | sum (a b : Pat)
  | subtract (a b : Pat)
  | average (a b : Pat)
  | clamp (p : Pat) (floor ceiling : ℚ)
  | validScale (p : Pat)
  | shift (p : Pat) (timeShift : ℚ)
  | repeatP (p : Pat) (count : ℚ)
  | forever (p : Pat)
  | chain (first andThen : Pat)
  | crossfade (first andThen : Pat) (overlapDuration : ℚ)
  | amplitudeModulator (p m : Pat)
  | custom (sampleFn : ℚ → ℚ) (durationValue : ℚ)

/-- `PatternGenerator::duration`, node by node, from the source.
`none` models a panic: `Shift::duration` computes
`self.pattern.duration() - self.time_shift` with `Duration` subtraction,
which panics on underflow; `Repeat::duration` calls
`Duration::from_secs_f64(count * child_duration)`, which panics on a
negative argument; `Crossfade::duration` subtracts the overlap likewise. -/
def duration : Pat → Option ℚ
  | .pause d => some d
  | .constant _ d => some d
  | .linear _ _ d => some d
  | .sawWave _ w => some w
  | .triangleWave _ w => some w
  | .squareWave _ w => some w
  | .sineWave _ w => some w
  | .random _ _ d => some d
  | .randomEvery _ _ d _ _ _ => some d
  | .randomWalk _ _ d _ _ _ => some d
  | .scaleTime p _ => duration p
  | .scaleIntensity p _ => duration p
  | .sum a b => (duration a).bind fun da => (duration b).map fun db => max da db
  | .subtract a b => (duration a).bind fun da => (duration b).map fun db => max da db
  | .average a b => (duration a).bind fun da => (duration b).map fun db => max da db
  | .clamp p _ _ => duration p
  | .validScale p => duration p
  | .shift p ts =>
      (duration p).bind fun d => if ts ≤ d then some (d - ts) else none
  | .repeatP p c =>
      (duration p).bind fun d => if 0 ≤ c * d then some (c * d) else none
  | .forever _ => some durationMAX
  | .chain a b => (duration a).bind fun da => (duration b).map fun db => da + db
  | .crossfade a b ov =>
      (duration a).bind fun da => (duration b).bind fun db =>
        if ov ≤ da + db then some (da + db - ov) else none
  | .amplitudeModulator p _ => duration p
  | .custom _ d => some d

/-- `PatternGenerator::sample`, node by node, from the source, with the
`&mut self` state updates made explicit.  Returns the sampled value, the
updated node, and the new oracle counter; `none` models a panic.
Bug-for-bug faithful points: `ScaleTime` samples its child at
`scalar * (1 / t)` (`transformers.rs:17`), `Repeat` wraps time modulo its own
total duration `count * child.duration` (`transformers.rs:155`), `Chain`
samples `andThen` at the absolute elapsed time (`transformers.rs:194`), and
`RandomWalk` clamps the *increment*, not the resulting state
(`random.rs:100`). -/
def sample (env : Env) : Pat → ℚ → ℕ → Option (ℚ × Pat × ℕ)
  | .pause d, _, k => some (0, .pause d, k)
  | .constant l d, _, k => some (l, .constant l d, k)
  | .linear a b d, t, k => some (a + (b - a) * t / d, .linear a b d, k)
  | .sawWave a w, t, k => some (fmod (a * (1 / w) * t) 1, .sawWave a w, k)
  | .triangleWave a w, t, k =>
      some (min ((2 * a / w) * |fmod (t - w / 2) w - w / 2|) a, .triangleWave a w, k)
  | .squareWave a w, t, k =>
      some (if fmod t w < w / 2 then a else 0, .squareWave a w, k)
  | .sineWave a w, t, k =>
      some ((a / 2) * env.cos (2 * pi64 * (1 / w) * (t + w / 2)) + a / 2, .sineWave a w, k)
  | .random lo hi d, _, k => some (env.rand k, .random lo hi d, k + 1)
  | .randomEvery lo hi d iv lt lv, _, k =>
      if env.wall k - lt > iv then
        some (env.rand k, .randomEvery lo hi d iv (env.wall k) (env.rand k), k + 1)
      else
        some (lv, .randomEvery lo hi d iv lt lv, k + 1)
  | .randomWalk lo hi d inc dec st, _, k =>
      let st2 := st + min (max (if st < env.rand k then inc else -dec) lo) hi
      some (st2, .randomWalk lo hi d inc dec st2, k + 1)
  | .scaleTime p s, t, k =>
      if t = 0 then none
      else if s * (1 / t) < 0 then none
      else (sample env p (s * (1 / t)) k).map fun r => (r.1, .scaleTime r.2.1 s, r.2.2)
  | .scaleIntensity p s, t, k =>
      (sample env p t k).map fun r => (s * r.1, .scaleIntensity r.2.1 s, r.2.2)
  | .sum a b, t, k =>
      (sample env a t k).bind fun ra =>
        (sample env b t ra.2.2).map fun rb =>
          (ra.1 + rb.1, .sum ra.2.1 rb.2.1, rb.2.2)
  | .subtract a b, t, k =>
      (sample env a t k).bind fun ra =>
        (sample env b t ra.2.2).map fun rb =>
          (ra.1 - rb.1, .subtract ra.2.1 rb.2.1, rb.2.2)
  | .average a b, t, k =>
      (sample env a t k).bind fun ra =>
        (sample env b t ra.2.2).map fun rb =>
          ((ra.1 + rb.1) / 2, .average ra.2.1 rb.2.1, rb.2.2)
  | .clamp p fl ce, t, k =>
      (sample env p t k).map fun r => (min (max r.1 fl) ce, .clamp r.2.1 fl ce, r.2.2)
  | .validScale p, t, k =>
      (sample env p t k).map fun r =>
        (1 / (1 + env.powfE (-r.1)), .validScale r.2.1, r.2.2)
  | .shift p ts, t, k =>
      (sample env p (t + ts) k).map fun r => (r.1, .shift r.2.1 ts, r.2.2)
  | .repeatP p c, t, k =>
      (duration p).bind fun d =>
        if 0 ≤ c * d then
          if c * d = 0 then none
          else if fmod t (c * d) < 0 then none
          else (sample env p (fmod t (c * d)) k).map fun r =>
            (r.1, .repeatP r.2.1 c, r.2.2)
        else none
  | .forever p, t, k =>
      (duration p).bind fun d =>
        if d = 0 then none
        else if fmod t d < 0 then none
        else (sample env p (fmod t d) k).map fun r => (r.1, .forever r.2.1, r.2.2)
  | .chain a b, t, k =>
      (duration a).bind fun da =>
        if t < da then
          (sample env a t k).map fun r => (r.1, .chain r.2.1 b, r.2.2)
        else
          (sample env b t k).map fun r => (r.1, .chain a r.2.1, r.2.2)
  | .crossfade a b ov, t, k =>
      (duration a).bind fun da =>
        if ov ≤ da then
          if t < da - ov then
            (sample env a t k).map fun r => (r.1, .crossfade r.2.1 b ov, r.2.2)
          else if t < da then
            (sample env a t k).bind fun ra =>
              (sample env b t ra.2.2).map fun rb =>
                (ra.1 * (1 - (t - (da - ov)) / ov) + rb.1 * ((t - (da - ov)) / ov),
                  .crossfade ra.2.1 rb.2.1 ov, rb.2.2)
          else if ov ≤ t then
            (sample env b (t - ov) k).map fun r => (r.1, .crossfade a r.2.1 ov, r.2.2)
          else none
        else none
  | .amplitudeModulator p m, t, k =>
      (sample env p t k).bind fun rp =>
        (sample env m t rp.2.2).map fun rm =>
          (rp.1 * rm.1, .amplitudeModulator rp.2.1 rm.2.1, rm.2.2)
  | .custom f d, t, k => some (f t, .custom f d, k)

/-- `PatternGenerator::reset`, from the source: only `RandomEvery`
(redraw `last_value`, `random.rs:70`) and `RandomWalk` (zero the state,
`random.rs:114`) override the default no-op; the combinators of
`transformers.rs` do not implement `reset` and so keep the default. -/
def reset (env : Env) : Pat → ℕ → Pat × ℕ
  | .randomEvery lo hi d iv lt _, k => (.randomEvery lo hi d iv lt (env.rand k), k + 1)
  | .randomWalk lo hi d inc dec _, k => (.randomWalk lo hi d inc dec 0, k)
  | p, k => (p, k)

/-- A connected device as the driver sees it through the buttplug client:
its `index()` and the indexes of its vibration actuators
(`vibrate_attributes`), from `lib.rs:270-272`. -/
structure DeviceInfo where
  index : ℕ
  vibrateActuators : List ℕ

/-- The `Driver` struct of `lib.rs:174-180` (the shared `ButtplugClient`
handle is externalized into the run parameters; the `HashMap` override maps
are modelled as association lists with unique keys). -/
structure DriverState where
  tickrate_hz : ℕ
  pattern : Pat
  device_patterns : List (ℕ × Pat)
  actuator_patterns : List ((ℕ × ℕ) × Pat)

/-- `HashMap` lookup on the association-list model. -/
def alookup {κ : Type} [DecidableEq κ] : List (κ × Pat) → κ → Option Pat
  | [], _ => none
  | (key, p) :: rest, q => if key = q then some p else alookup rest q

/-- In-place update of the pattern stored under a key (models the mutation a
`get_mut` + `sample` performs on the stored boxed pattern). -/
def aupdate {κ : Type} [DecidableEq κ] : List (κ × Pat) → κ → Pat → List (κ × Pat)
  | [], _, _ => []
  | (key, p) :: rest, q, p2 =>
      if key = q then (key, p2) :: rest else (key, p) :: aupdate rest q p2

/-- `Driver::set_tickrate` (`lib.rs:201-204`): stores `hz` with no
validation. -/
def set_tickrate (st : DriverState) (hz : ℕ) : DriverState :=
  { st with tickrate_hz := hz }

/-- The tick-interval computation of `run_while` (`lib.rs:262`):
`Duration::from_millis(1000 / self.tickrate_hz)` in `u64` arithmetic, which
panics (`none`) on division by zero. -/
def tickInterval (hz : ℕ) : Option ℕ :=
  if hz = 0 then none else some (1000 / hz)

/-- A device command observable at the buttplug-client boundary. -/
inductive Cmd where
  | vibrate (device : ℕ) (levels : List (ℕ × ℚ))
  | stopAll
deriving DecidableEq

/-- Whether a command is the stop-all command. -/
def Cmd.isStopAll : Cmd → Bool
  | .stopAll => true
  | _ => false

/-- How a run of the driver loop ended. -/
inductive RunEnd where
  | expired
  | cancelled
  | errored
deriving DecidableEq

/-- The per-actuator `let level = ...` expression of `lib.rs:274-283`,
including Rust's eager evaluation of the `unwrap_or` argument: the
actuator-override lookup is sampled first (when present), then the
device-override lookup is sampled (when present) even if its value is
discarded, then `unwrap_or` selects actuator sample, else device sample,
else the tick's shared global sample `g`. -/
def levelFor (env : Env) (st : DriverState) (di ai : ℕ) (elapsed g : ℚ) (k : ℕ) :
    Option (ℚ × DriverState × ℕ) :=
  match alookup st.actuator_patterns (di, ai) with
  | none => levelDev env st di elapsed g k none
  | some p =>
    match sample env p elapsed k with
    | none => none
    | some (v, p2, k2) =>
      levelDev env
        { st with actuator_patterns := aupdate st.actuator_patterns (di, ai) p2 }
        di elapsed g k2 (some v)
where
  /-- Second half of the expression: sample the device override (if any) and
  resolve `actVal.unwrap_or (devVal.unwrap_or g)`. -/
  levelDev (env : Env) (st : DriverState) (di : ℕ) (_elapsed g : ℚ) (k : ℕ)
      (actVal : Option ℚ) : Option (ℚ × DriverState × ℕ) :=
    match alookup st.device_patterns di with
    | none => some (actVal.getD g, st, k)
    | some p =>
      match sample env p _elapsed k with
      | none => none
      | some (v, p2, k2) =>
        some (actVal.getD v,
          { st with device_patterns := aupdate st.device_patterns di p2 }, k2)

/-- The inner actuator loop of one device (`lib.rs:271-285`): builds the
per-actuator intensity map in actuator order. -/
def deviceLevels (env : Env) (di : ℕ) (elapsed g : ℚ) :
    DriverState → ℕ → List ℕ → Option (List (ℕ × ℚ) × DriverState × ℕ)
  | st, k, [] => some ([], st, k)
  | st, k, ai :: rest =>
    match levelFor env st di ai elapsed g k with
    | none => none
    | some (v, st1, k1) =>
      match deviceLevels env di elapsed g st1 k1 rest with
      | none => none
      | some (m, st2, k2) => some ((ai, v) :: m, st2, k2)

/-- The device loop of one tick (`lib.rs:270-289`): for each device build the
intensity map and issue one `vibrate` command; `vibOk` tells whether that
send succeeds.  On a send failure the `?` operator exits immediately: the
returned `Bool` is `false` and the remaining devices are not processed. -/
def tickDevs (env : Env) (vibOk : ℕ → Bool) (elapsed g : ℚ) :
    DriverState → ℕ → List DeviceInfo → Option (List Cmd × Bool × DriverState × ℕ)
  | st, k, [] => some ([], true, st, k)
  | st, k, dev :: rest =>
    match deviceLevels env dev.index elapsed g st k dev.vibrateActuators with
    | none => none
    | some (m, st1, k1) =>
      if vibOk dev.index then
        match tickDevs env vibOk elapsed g st1 k1 rest with
        | none => none
        | some (cmds, okAll, st2, k2) =>
          some (Cmd.vibrate dev.index m :: cmds, okAll, st2, k2)
      else
        some ([Cmd.vibrate dev.index m], false, st1, k1)

/-- The `while running.load(..)` loop of `run_while` (`lib.rs:263-292`) plus
the trailing `stop_all_devices` call (`lib.rs:292`).  `flag` is the value of
the `running : AtomicBool` parameter: `run_while` takes it by value, so
nothing outside the loop can change it and it is a constant of the run.
`elapsedAt i` is the `start.elapsed()` reading at iteration `i`; `vibOk i d`
is whether the `vibrate` send to device `d` succeeds at iteration `i`.
Returns the emitted commands in order, how the run ended, and the final
driver state; `none` models a panic or fuel exhaustion.  Faithful to the
source, a `vibrate` send failure propagates via `?` *without* reaching the
`stop_all_devices` call. -/
def tickLoop (env : Env) (devices : List DeviceInfo) (vibOk : ℕ → ℕ → Bool)
    (elapsedAt : ℕ → ℚ) (flag : Bool) :
    ℕ → DriverState → ℕ → ℕ → Option (List Cmd × RunEnd × DriverState)
  | 0, _, _, _ => none
  | fuel + 1, st, k, i =>
    if flag then
      match duration st.pattern with
      | none => none
      | some d =>
        if elapsedAt i > d then some ([Cmd.stopAll], .expired, st)
        else
          match sample env st.pattern (elapsedAt i) k with
          | none => none
          | some (g, pat2, k1) =>
            match tickDevs env (vibOk i) (elapsedAt i) g { st with pattern := pat2 } k1 devices with
            | none => none
            | some (cmds, false, st2, _) => some (cmds, .errored, st2)
            | some (cmds, true, st2, k2) =>
              match tickLoop env devices vibOk elapsedAt flag fuel st2 k2 (i + 1) with
              | none => none
              | some (cmds2, r, st3) => some (cmds ++ cmds2, r, st3)
    else some ([Cmd.stopAll], .cancelled, st)

/-- Reset every pattern stored in an override map, in order
(`lib.rs:259-260`). -/
def resetList {κ : Type} (env : Env) : List (κ × Pat) → ℕ → List (κ × Pat) × ℕ
  | [], k => ([], k)
  | (key, p) :: rest, k =>
    let (p2, k1) := reset env p k
    let (rest2, k2) := resetList env rest k1
    ((key, p2) :: rest2, k2)

/-- `Driver::run_while` (`lib.rs:257-293`): reset the global pattern and all
overrides, compute the tick interval (panicking on a zero tick rate), then
run the loop.  `running` is the by-value `AtomicBool` argument, constant for
the whole run. -/
def run_while (env : Env) (devices : List DeviceInfo) (vibOk : ℕ → ℕ → Bool)
    (elapsedAt : ℕ → ℚ) (running : Bool) (fuel : ℕ) (st : DriverState) :
    Option (List Cmd × RunEnd × DriverState) :=
  let (p2, k1) := reset env st.pattern 0
  let (dp2, k2) := resetList env st.device_patterns k1
  let (ap2, k3) := resetList env st.actuator_patterns k2
  let st1 := { st with pattern := p2, device_patterns := dp2, actuator_patterns := ap2 }
  match tickInterval st.tickrate_hz with
  | none => none
  | some _ => tickLoop env devices vibOk elapsedAt running fuel st1 k3 0

/-- `Driver::run` (`lib.rs:250-252`): `run_while` with a freshly-created
`AtomicBool::new(true)`. -/
def run (env : Env) (devices : List DeviceInfo) (vibOk : ℕ → ℕ → Bool)
    (elapsedAt : ℕ → ℚ) (fuel : ℕ) (st : DriverState) :
    Option (List Cmd × RunEnd × DriverState) :=
  run_while env devices vibOk elapsedAt true fuel st

/-- A concrete oracle environment for witnesses: every random draw yields
`1/2`, cosine and the exponential are the constant-one oracle, the wall
clock reads zero. -/
def env0 : Env := ⟨fun _ => 1, fun _ => 1, fun _ => 1 / 2, fun _ => 0⟩

/-- A concrete oracle environment whose every random draw yields `9/10`. -/
def env9 : Env := ⟨fun _ => 1, fun _ => 1, fun _ => 9 / 10, fun _ => 0⟩

/-- A driver with the default 10 Hz tick rate, a constant global pattern of
duration 10 seconds, and no overrides. -/
def st0 : DriverState := ⟨10, .constant 1 10, [], []⟩

/-- The two-device fixture of the override-resolution property: device 0 has
vibrate actuators 0 and 1, device 1 has vibrate actuator 2. -/
def devs3 : List DeviceInfo := [⟨0, [0, 1]⟩, ⟨1, [2]⟩]

/-- Driver state with global pattern `pg`, a device-level override `pd` on
device 0 and an actuator-level override `pa` on actuator (0, 0). -/
def st3 (pg pd pa : Pat) : DriverState := ⟨10, pg, [(0, pd)], [((0, 0), pa)]⟩

/-- Helper: one `sample` step never changes the reported `duration` of the
updated node (the mutable state inlined in the constructors is not read by
`duration`). -/
theorem duration_sample_eq (env : Env) :
    ∀ (p : Pat) (t : ℚ) (k : ℕ) (v : ℚ) (p2 : Pat) (k2 : ℕ),
      sample env p t k = some (v, p2, k2) → duration p2 = duration p := by
  intro p
  induction p with
  | pause d =>
    intro t k v p2 k2 h
    simp only [sample, Option.some.injEq, Prod.mk.injEq] at h
    obtain ⟨-, rfl, -⟩ := h
    rfl
  | constant l d =>
    intro t k v p2 k2 h
    simp only [sample, Option.some.injEq, Prod.mk.injEq] at h
    obtain ⟨-, rfl, -⟩ := h
    rfl
  | linear a b d =>
    intro t k v p2 k2 h
    simp only [sample, Option.some.injEq, Prod.mk.injEq] at h
    obtain ⟨-, rfl, -⟩ := h
    rfl
  | sawWave a w =>
    intro t k v p2 k2 h
    simp only [sample, Option.some.injEq, Prod.mk.injEq] at h
    obtain ⟨-, rfl, -⟩ := h
    rfl
  | triangleWave a w =>
    intro t k v p2 k2 h
    simp only [sample, Option.some.injEq, Prod.mk.injEq] at h
    obtain ⟨-, rfl, -⟩ := h
    rfl
  | squareWave a w =>
    intro t k v p2 k2 h
    simp only [sample, Option.some.injEq, Prod.mk.injEq] at h
    obtain ⟨-, rfl, -⟩ := h
    rfl
  | sineWave a w =>
    intro t k v p2 k2 h
    simp only [sample, Option.some.injEq, Prod.mk.injEq] at h
    obtain ⟨-, rfl, -⟩ := h
    rfl
  | random lo hi d =>
    intro t k v p2 k2 h
    simp only [sample, Option.some.injEq, Prod.mk.injEq] at h
    obtain ⟨-, rfl, -⟩ := h
    rfl
  | randomEvery lo hi d iv lt lv =>
    intro t k v p2 k2 h
    simp only [sample] at h
    split at h <;>
    · simp only [Option.some.injEq, Prod.mk.injEq] at h
      obtain ⟨-, rfl, -⟩ := h
      rfl
  | randomWalk lo hi d inc dec st =>
    intro t k v p2 k2 h
    simp only [sample, Option.some.injEq, Prod.mk.injEq] at h
    obtain ⟨-, rfl, -⟩ := h
    rfl
  | scaleTime p s ih =>
    intro t k v p2 k2 h
    simp only [sample] at h
    split at h
    · exact absurd h (by simp)
    split at h
    · exact absurd h (by simp)
    simp only [Option.map_eq_some', Prod.mk.injEq] at h
    obtain ⟨⟨rv, rp, rk⟩, hr, -, rfl, -⟩ := h
    simp only [duration, ih _ _ _ _ _ hr]
  | scaleIntensity p s ih =>
    intro t k v p2 k2 h
    simp only [sample, Option.map_eq_some', Prod.mk.injEq] at h
    obtain ⟨⟨rv, rp, rk⟩, hr, -, rfl, -⟩ := h
    simp only [duration, ih _ _ _ _ _ hr]
  | sum a b iha ihb =>
    intro t k v p2 k2 h
    simp only [sample, Option.bind_eq_some, Option.map_eq_some', Prod.mk.injEq] at h
    obtain ⟨⟨va, a2, ka⟩, ha, ⟨vb, b2, kb⟩, hb, -, rfl, -⟩ := h
    simp only [duration, iha _ _ _ _ _ ha, ihb _ _ _ _ _ hb]
  | subtract a b iha ihb =>
    intro t k v p2 k2 h
    simp only [sample, Option.bind_eq_some, Option.map_eq_some', Prod.mk.injEq] at h
    obtain ⟨⟨va, a2, ka⟩, ha, ⟨vb, b2, kb⟩, hb, -, rfl, -⟩ := h
    simp only [duration, iha _ _ _ _ _ ha, ihb _ _ _ _ _ hb]
  | average a b iha ihb =>
    intro t k v p2 k2 h
    simp only [sample, Option.bind_eq_some, Option.map_eq_some', Prod.mk.injEq] at h
    obtain ⟨⟨va, a2, ka⟩, ha, ⟨vb, b2, kb⟩, hb, -, rfl, -⟩ := h
    simp only [duration, iha _ _ _ _ _ ha, ihb _ _ _ _ _ hb]
  | clamp p fl ce ih =>
    intro t k v p2 k2 h
    simp only [sample, Option.map_eq_some', Prod.mk.injEq] at h
    obtain ⟨⟨rv, rp, rk⟩, hr, -, rfl, -⟩ := h
    simp only [duration, ih _ _ _ _ _ hr]
  | validScale p ih =>
    intro t k v p2 k2 h
    simp only [sample, Option.map_eq_some', Prod.mk.injEq] at h
    obtain ⟨⟨rv, rp, rk⟩, hr, -, rfl, -⟩ := h
    simp only [duration, ih _ _ _ _ _ hr]
  | shift p ts ih =>
    intro t k v p2 k2 h
    simp only [sample, Option.map_eq_some', Prod.mk.injEq] at h
    obtain ⟨⟨rv, rp, rk⟩, hr, -, rfl, -⟩ := h
    simp only [duration, ih _ _ _ _ _ hr]
  | repeatP p c ih =>
    intro t k v p2 k2 h
    simp only [sample, Option.bind_eq_some] at h
    obtain ⟨d, hd, h⟩ := h
    split at h
    case isFalse => exact absurd h (by simp)
    split at h
    · exact absurd h (by simp)
    split at h
    · exact absurd h (by simp)
    simp only [Option.map_eq_some', Prod.mk.injEq] at h
    obtain ⟨⟨rv, rp, rk⟩, hr, -, rfl, -⟩ := h
    simp only [duration, ih _ _ _ _ _ hr]
  | forever p ih =>
    intro t k v p2 k2 h
    simp only [sample, Option.bind_eq_some] at h
    obtain ⟨d, hd, h⟩ := h
    split at h
    · exact absurd h (by simp)
    split at h
    · exact absurd h (by simp)
    simp only [Option.map_eq_some', Prod.mk.injEq] at h
    obtain ⟨⟨rv, rp, rk⟩, hr, -, rfl, -⟩ := h
    rfl
  | chain a b iha ihb =>
    intro t k v p2 k2 h
    simp only [sample, Option.bind_eq_some] at h
    obtain ⟨da, hda, h⟩ := h
    split at h <;>
      simp only [Option.map_eq_some', Prod.mk.injEq] at h
    · obtain ⟨⟨rv, rp, rk⟩, hr, -, rfl, -⟩ := h
      simp only [duration, iha _ _ _ _ _ hr]
    · obtain ⟨⟨rv, rp, rk⟩, hr, -, rfl, -⟩ := h
      simp only [duration, ihb _ _ _ _ _ hr]
  | crossfade a b ov iha ihb =>
    intro t k v p2 k2 h
    simp only [sample, Option.bind_eq_some] at h
    obtain ⟨da, hda, h⟩ := h
    split at h
    case isFalse => exact absurd h (by simp)
    split at h
    · simp only [Option.map_eq_some', Prod.mk.injEq] at h
      obtain ⟨⟨rv, rp, rk⟩, hr, -, rfl, -⟩ := h
      simp only [duration, iha _ _ _ _ _ hr]
    split at h
    · simp only [Option.bind_eq_some, Option.map_eq_some', Prod.mk.injEq] at h
      obtain ⟨⟨va, a2, ka⟩, ha, ⟨vb, b2, kb⟩, hb, -, rfl, -⟩ := h
      simp only [duration, iha _ _ _ _ _ ha, ihb _ _ _ _ _ hb]
    split at h
    · simp only [Option.map_eq_some', Prod.mk.injEq] at h
      obtain ⟨⟨rv, rp, rk⟩, hr, -, rfl, -⟩ := h
      simp only [duration, ihb _ _ _ _ _ hr]
    · exact absurd h (by simp)
  | amplitudeModulator p m ihp ihm =>
    intro t k v p2 k2 h
    simp only [sample, Option.bind_eq_some, Option.map_eq_some', Prod.mk.injEq] at h
    obtain ⟨⟨va, a2, ka⟩, ha, ⟨vb, b2, kb⟩, hb, -, rfl, -⟩ := h
    simp only [duration, ihp _ _ _ _ _ ha]
  | custom f d =>
    intro t k v p2 k2 h
    simp only [sample, Option.some.injEq, Prod.mk.injEq] at h
    obtain ⟨-, rfl, -⟩ := h
    rfl

/-- Helper: `reset` never changes the reported `duration` of a node. -/
theorem duration_reset_eq (env : Env) (p : Pat) (k : ℕ) :
    duration (reset env p k).1 = duration p := by
  cases p <;> rfl

/-- C10: for every pattern node type, `duration()` is a pure function of the
node's immutable configuration: a `sample` step never changes the value
`duration()` returns, nor does a `reset`; and `Forever` always reports the
maximum representable `Duration` (`Duration::MAX`). -/
theorem duration_pure_of_config :
    (∀ env p t k v p2 k2, sample env p t k = some (v, p2, k2) →
        duration p2 = duration p)
    ∧ (∀ env p k, duration (reset env p k).1 = duration p)
    ∧ (∀ p, duration (Pat.forever p) = some durationMAX) :=
  ⟨fun env p t k v p2 k2 h => duration_sample_eq env p t k v p2 k2 h,
   fun env p k => duration_reset_eq env p k,
   fun _ => rfl⟩

/-- Witness for C10: a concrete `RandomWalk` step (state moves from 0 to 3/5
under `env0`) leaves `duration()` unchanged. -/
theorem duration_pure_of_config_witness :
    duration (Pat.randomWalk 0 1 5 (3 / 5) (1 / 5) (3 / 5)) =
      duration (Pat.randomWalk 0 1 5 (3 / 5) (1 / 5) 0) :=
  duration_pure_of_config.1 env0 _ 0 0 (3 / 5) _ 1 (by norm_num [sample, env0])

/-- C4, counterexample part: `Chain` samples its second child at the
*absolute* elapsed time, not at time relative to the second child's start.
With `first = Constant(1, 1s)` and `then = Linear(0, 1, 1s)`, at `t = 3/2`
the code yields `then.sample(3/2) = 3/2`, while the claimed contract demands
`then.sample(3/2 - 1) = 1/2`.  (The duration clause of the claim,
`chain(a,b).duration() = a.duration() + b.duration()`, does hold: last
conjunct.) -/
theorem chain_samples_then_at_absolute_time :
    sample env0 (Pat.chain (Pat.constant 1 1) (Pat.linear 0 1 1)) (3 / 2) 0
        = some (3 / 2, Pat.chain (Pat.constant 1 1) (Pat.linear 0 1 1), 0)
    ∧ sample env0 (Pat.linear 0 1 1) (3 / 2 - 1) 0
        = some (1 / 2, Pat.linear 0 1 1, 0)
    ∧ (3 / 2 : ℚ) ≠ 1 / 2
    ∧ duration (Pat.chain (Pat.constant 1 1) (Pat.linear 0 1 1)) = some (1 + 1) := by
  refine ⟨?_, ?_, by norm_num, by norm_num [duration]⟩
  · norm_num [sample, duration]
  · norm_num [sample]

/-- C5, counterexample part: `ScaleTime` samples its child at
`scalar * (1 / t)` (the reciprocal form), not at `scalar * t`.  With child
`Linear(0, 1, 4s)`, scalar 2 and `t = 2`, the code samples the child at
`2 * (1/2) = 1` giving `1/4`, while the claimed linear form samples at
`2 * 2 = 4` giving `1`.  (The duration clause of the claim does hold: last
conjunct.) -/
theorem scaleTime_samples_reciprocal :
    sample env0 (Pat.scaleTime (Pat.linear 0 1 4) 2) 2 0
        = some (1 / 4, Pat.scaleTime (Pat.linear 0 1 4) 2, 0)
    ∧ sample env0 (Pat.linear 0 1 4) (2 * 2) 0
        = some (1, Pat.linear 0 1 4, 0)
    ∧ (1 / 4 : ℚ) ≠ 1
    ∧ duration (Pat.scaleTime (Pat.linear 0 1 4) 2) = duration (Pat.linear 0 1 4) := by
  refine ⟨?_, ?_, by norm_num, rfl⟩
  · norm_num [sample]
  · norm_num [sample]

/-- C6: `set_tickrate` stores a zero tick rate without any validation, and
the failure only surfaces inside `run_while`, where
`Duration::from_millis(1000 / self.tickrate_hz)` divides by zero and panics
(modelled as `none`) — the opposite of eager rejection at configuration
time. -/
theorem set_tickrate_accepts_zero :
    (set_tickrate st0 0).tickrate_hz = 0
    ∧ tickInterval 0 = none
    ∧ run_while env0 [] (fun _ _ => true) (fun _ => 0) true 5 (set_tickrate st0 0)
        = none := by
  refine ⟨rfl, rfl, ?_⟩
  norm_num [run_while, set_tickrate, st0, reset, resetList, tickInterval]

/-- C7, counterexample part: `Shift::duration` computes
`child.duration() - time_shift` with `Duration` subtraction, which panics
(modelled `none`) when the shift exceeds the child's duration, instead of
clamping the result to zero as the claim states.  (When the shift does not
exceed the child's duration the subtraction is returned: second conjunct.) -/
theorem shift_duration_underflow_panics :
    duration (Pat.shift (Pat.pause 1) 2) = none
    ∧ duration (Pat.shift (Pat.pause 1) (1 / 2)) = some (1 - 1 / 2) := by
  constructor
  · norm_num [duration]
  · norm_num [duration]

/-- C8, counterexample part: `Repeat` wraps time modulo its *own total*
duration (`count * child.duration`), not modulo the child's duration, so it
is not periodic with period `child.duration`.  With `p = Linear(0, 1, 1s)`
and `count = 2`, at `t = 1 * p.duration + 1/2 = 3/2` (which is below the
total duration 2) the code yields `p.sample(3/2) = 3/2`, while the claimed
periodicity demands `p.sample(1/2) = 1/2`.  (The duration clause of the
claim, `repeat(p,n).duration() = n * p.duration()`, does hold: first
conjunct.) -/
theorem repeat_not_periodic :
    duration (Pat.repeatP (Pat.linear 0 1 1) 2) = some (2 * 1)
    ∧ sample env0 (Pat.repeatP (Pat.linear 0 1 1) 2) (1 * 1 + 1 / 2) 0
        = some (3 / 2, Pat.repeatP (Pat.linear 0 1 1) 2, 0)
    ∧ sample env0 (Pat.linear 0 1 1) (1 / 2) 0
        = some (1 / 2, Pat.linear 0 1 1, 0)
    ∧ (3 / 2 : ℚ) ≠ 1 / 2 := by
  refine ⟨by norm_num [duration], ?_, by norm_num [sample], by norm_num⟩
  norm_num [sample, duration, fmod, qtrunc, Int.tdiv]

/-- C9, counterexample part: `RandomWalk::sample` applies the
`.max(range.start).min(range.end)` clamp to the *increment*, not to the
updated state, so the state (and the returned value) can leave the
configured range.  With range `0..1`, `inc = 3/5`, `dec = 1/5` and every
candidate draw `9/10` (within the range), two sample calls drive the state
to `6/5 > 1`. -/
theorem randomWalk_state_escapes_range :
    sample env9 (Pat.randomWalk 0 1 5 (3 / 5) (1 / 5) 0) 0 0
        = some (3 / 5, Pat.randomWalk 0 1 5 (3 / 5) (1 / 5) (3 / 5), 1)
    ∧ sample env9 (Pat.randomWalk 0 1 5 (3 / 5) (1 / 5) (3 / 5)) 0 1
        = some (6 / 5, Pat.randomWalk 0 1 5 (3 / 5) (1 / 5) (6 / 5), 2)
    ∧ (6 / 5 : ℚ) > 1
    ∧ 0 ≤ env9.rand 0 ∧ env9.rand 0 < 1 ∧ 0 ≤ env9.rand 1 ∧ env9.rand 1 < 1 := by
  refine ⟨?_, ?_, by norm_num, by norm_num [env9], by norm_num [env9],
    by norm_num [env9], by norm_num [env9]⟩
  · norm_num [sample, env9]
  · norm_num [sample, env9]

/-- Helper: with the running flag constantly `true`, the loop of `run_while`
never takes the cancellation exit: any completed run ended by duration
expiry or by a command-send error. -/
theorem tickLoop_true_not_cancelled (env : Env) (devices : List DeviceInfo)
    (vibOk : ℕ → ℕ → Bool) (elapsedAt : ℕ → ℚ) :
    ∀ (fuel : ℕ) (st : DriverState) (k i : ℕ) (cmds : List Cmd) (r : RunEnd)
      (st2 : DriverState),
      tickLoop env devices vibOk elapsedAt true fuel st k i = some (cmds, r, st2) →
      r = RunEnd.expired ∨ r = RunEnd.errored := by
  intro fuel
  induction fuel with
  | zero =>
    intro st k i cmds r st2 h
    exact absurd h (by simp [tickLoop])
  | succ n ih =>
    intro st k i cmds r st2 h
    rw [tickLoop, if_pos rfl] at h
    split at h
    · exact absurd h (by simp)
    split at h
    · simp only [Option.some.injEq, Prod.mk.injEq] at h
      obtain ⟨-, rfl, -⟩ := h
      exact Or.inl rfl
    split at h
    · exact absurd h (by simp)
    split at h
    · exact absurd h (by simp)
    · simp only [Option.some.injEq, Prod.mk.injEq] at h
      obtain ⟨-, rfl, -⟩ := h
      exact Or.inr rfl
    · split at h
      · exact absurd h (by simp)
      · simp only [Option.some.injEq, Prod.mk.injEq] at h
        obtain ⟨-, rfl, -⟩ := h
        next heq => exact ih _ _ _ _ _ _ heq

/-- C2: `run_while` takes its `running : AtomicBool` by value, so once a run
starts no code outside the loop holds a handle to clear it: the flag is a
constant of the run (embedded as the constant `Bool` parameter of
`tickLoop`).  `Driver::run` is literally `run_while` on a fresh
`AtomicBool::new(true)` (first conjunct), and every completed run whose flag
is `true` ended by duration expiry or by a command-send error, never by
cancellation (second conjunct). -/
theorem run_while_true_never_cancelled :
    (∀ env devices vibOk elapsedAt fuel st,
        run env devices vibOk elapsedAt fuel st
          = run_while env devices vibOk elapsedAt true fuel st)
    ∧ (∀ env devices vibOk elapsedAt fuel st cmds r st2,
        run_while env devices vibOk elapsedAt true fuel st = some (cmds, r, st2) →
        r = RunEnd.expired ∨ r = RunEnd.errored) := by
  refine ⟨fun _ _ _ _ _ _ => rfl, ?_⟩
  intro env devices vibOk elapsedAt fuel st cmds r st2 h
  rw [run_while] at h
  split at h
  split at h
  split at h
  split at h
  · exact absurd h (by simp)
  · exact tickLoop_true_not_cancelled env devices vibOk elapsedAt fuel _ _ _ _ _ _ h

/-- Witness for C2: a concrete run (no devices, duration 10, first elapsed
reading 20) completes by duration expiry. -/
theorem run_while_true_never_cancelled_witness :
    RunEnd.expired = RunEnd.expired ∨ RunEnd.expired = RunEnd.errored :=
  run_while_true_never_cancelled.2 env0 [] (fun _ _ => true) (fun _ => 20) 1 st0
    [Cmd.stopAll] RunEnd.expired st0
    (by norm_num [run_while, st0, reset, resetList, tickInterval, tickLoop, duration])

/-- C1, failing-input evaluation: when the `vibrate` send to a device fails,
the `?` operator in `run_while` (`lib.rs:288`) returns the error immediately
and the `stop_all_devices` call at `lib.rs:292` is never reached.  Concretely
(global pattern `Constant(1, 10s)`, one device with one actuator, the send
failing on the first tick), the run ends `errored`, its command trace is the
single attempted `vibrate`, and the number of stop-all commands issued is 0,
not 1. -/
theorem run_error_skips_stop_all :
    (run_while env0 [⟨0, [0]⟩] (fun _ _ => false) (fun _ => 0) true 2 st0).map
        (fun r => ((r.1.filter Cmd.isStopAll).length, r.1, r.2.1))
      = some (0, [Cmd.vibrate 0 [(0, 1)]], RunEnd.errored) := by
  norm_num [run_while, st0, reset, resetList, tickInterval, tickLoop, tickDevs,
    deviceLevels, levelFor, levelFor.levelDev, alookup, sample, duration, Cmd.isStopAll]

/-- C3: on a single tick, with an actuator-level override `pa` on actuator
(0,0), a device-level override `pd` on device 0, and no overrides on device
1, the intensities sent are: `pa`'s sample for actuator 0, `pd`'s (fresh)
sample for actuator 1 — not the global pattern's — and, for actuator 2 of
override-free device 1, the single global sample `g` taken once at the top
of the tick.  (Faithful to Rust's eager `unwrap_or` argument evaluation,
`pd` is sampled once during actuator 0's resolution with the value
discarded, so actuator 1 receives `pd`'s second sample `vd2`.) -/
theorem override_resolution (env : Env) (pa pd pg pg2 pa2 pd1 pd2 : Pat)
    (elapsedAt : ℕ → ℚ) (D g va vd1 vd2 : ℚ) (k1 k2 k3 k4 : ℕ)
    (hD : duration pg = some D)
    (h0 : ¬ elapsedAt 0 > D)
    (h1 : elapsedAt 1 > D)
    (hg : sample env pg (elapsedAt 0) 0 = some (g, pg2, k1))
    (ha : sample env pa (elapsedAt 0) k1 = some (va, pa2, k2))
    (hd1 : sample env pd (elapsedAt 0) k2 = some (vd1, pd1, k3))
    (hd2 : sample env pd1 (elapsedAt 0) k3 = some (vd2, pd2, k4)) :
    tickLoop env devs3 (fun _ _ => true) elapsedAt true 2 (st3 pg pd pa) 0 0
      = some ([Cmd.vibrate 0 [(0, va), (1, vd2)], Cmd.vibrate 1 [(2, g)], Cmd.stopAll],
          RunEnd.expired, st3 pg2 pd2 pa2) := by
  have hD2 : duration pg2 = some D := by
    rw [duration_sample_eq env pg _ _ _ _ _ hg, hD]
  simp +decide [tickLoop, tickDevs, deviceLevels, levelFor, levelFor.levelDev, alookup,
    aupdate, st3, devs3, hD, hD2, h0, h1, hg, ha, hd1, hd2, Prod.mk.injEq]

/-- Witness for C3: constant overrides `pa = 3/4` (actuator 0), `pd = 1/4`
(device 0) and global `pg = 1/2`; the tick sends 3/4 to actuator 0, 1/4 to
actuator 1 and 1/2 to actuator 2. -/
theorem override_resolution_witness :
    tickLoop env0 devs3 (fun _ _ => true) (fun i => 20 * (i : ℚ)) true 2
        (st3 (Pat.constant (1 / 2) 10) (Pat.constant (1 / 4) 7) (Pat.constant (3 / 4) 5))
        0 0
      = some ([Cmd.vibrate 0 [(0, 3 / 4), (1, 1 / 4)], Cmd.vibrate 1 [(2, 1 / 2)],
          Cmd.stopAll], RunEnd.expired,
          st3 (Pat.constant (1 / 2) 10) (Pat.constant (1 / 4) 7)
            (Pat.constant (3 / 4) 5)) :=
  override_resolution env0 (Pat.constant (3 / 4) 5) (Pat.constant (1 / 4) 7)
    (Pat.constant (1 / 2) 10) (Pat.constant (1 / 2) 10) (Pat.constant (3 / 4) 5)
    (Pat.constant (1 / 4) 7) (Pat.constant (1 / 4) 7) (fun i => 20 * (i : ℚ))
    10 (1 / 2) (3 / 4) (1 / 4) (1 / 4) 0 0 0 0
    (by norm_num [duration]) (by norm_num) (by norm_num)
    (by norm_num [sample]) (by norm_num [sample]) (by norm_num [sample])
    (by norm_num [sample])

end ButtplugPatterns
